import Mathlib

set_option autoImplicit false

namespace PyProxy

/-!
Shallow embedding of pyproxy (src/pyproxy/proxy.py and src/pyproxy/proxy3.py).

The host-language value domain is modelled by `Val`, a plain object by `PyObj`
(attribute dictionary, item dictionary, optional element sequence for the
iteration protocol, string and length slots, and the context-manager slots).
Mutation is modelled by explicit state passing: a native operation that mutates
the target returns the updated `PyObj`.  Raised exceptions are modelled by
`Except Err`.  Handler override functions are Lean functions over this model;
an override that mutates the target returns the updated target.
-/

/-- Dynamic values.  A context-manager object (what a context override returns)
is modelled as data: an identity tag, the value its enter returns and the value
its exit returns.  Its invocations are recorded in an event trace by the proxy
operations. -/
inductive Val where
  | vNone
  | vBool (b : Bool)
  | vInt (n : Int)
  | vStr (s : String)
  | vCtx (cid : Nat) (enterRet : Nat) (exitRet : Option Bool)
  deriving DecidableEq

/-- Raised exceptions: AttributeError, TypeError, KeyError. -/
inductive Err where
  | attrErr (msg : String)
  | typeErr (msg : String)
  | keyErr (msg : String)
  deriving DecidableEq

def isTypeErr : Err → Bool
  | .typeErr _ => true
  | _ => false

/-- First-match association lookup, the dictionary model. -/
def lookupA {κ α : Type} [DecidableEq κ] : List (κ × α) → κ → Option α
  | [], _ => none
  | (k', v) :: rest, k => if k' = k then some v else lookupA rest k

/-- Remove a key from an association list, the dictionary deletion model. -/
def removeKey {κ α : Type} [DecidableEq κ] : List (κ × α) → κ → List (κ × α)
  | [], _ => []
  | (k', v) :: rest, k =>
    if k' = k then removeKey rest k else (k', v) :: removeKey rest k

/-- A plain host object: the opaque target of a wrapper.
`attrs` is its attribute dictionary; `items` its subscript dictionary;
`elems` is some sequence exactly when the object supports the iteration
protocol (isinstance Iterable); a membership query for a value listed in
`badContains` raises TypeError (for example an unhashable key), which is the
failure the containment fallback of the wrapper suppresses; `lenVal` is some
exactly when the object supports len; `eqVals` lists the values the object
compares equal to; `enterSlot` (return value of the native enter) and
`exitSlot` (return value of the native exit) are some exactly when the object
defines the corresponding context-protocol method. -/
structure PyObj where
  attrs : List (String × Val)
  items : List (Val × Val)
  elems : Option (List Val)
  badContains : List Val
  strVal : String
  reprVal : String
  lenVal : Option Nat
  eqVals : List Val
  truthy : Bool
  enterSlot : Option Nat
  exitSlot : Option (Option Bool)

/-- Native attribute read: getattr on the target, AttributeError when absent. -/
def pyGetattr (t : PyObj) (name : String) : Except Err Val :=
  match lookupA t.attrs name with
  | some v => .ok v
  | none => .error (.attrErr name)

/-- Native attribute write: setattr on the target (ordinary objects accept any
attribute name). -/
def pySetattr (t : PyObj) (name : String) (v : Val) : PyObj :=
  { t with attrs := (name, v) :: removeKey t.attrs name }

/-- Native attribute delete: delattr on the target, AttributeError when absent. -/
def pyDelattr (t : PyObj) (name : String) : Except Err PyObj :=
  match lookupA t.attrs name with
  | some _ => .ok { t with attrs := removeKey t.attrs name }
  | none => .error (.attrErr name)

/-- Native hasattr on the target. -/
def pyHasattr (t : PyObj) (name : String) : Bool :=
  (lookupA t.attrs name).isSome

/-- Native membership: a value in the target.  Raises TypeError when the
object supports no membership at all, or for the values the object cannot
test (modelled by badContains). -/
def pyContains (t : PyObj) (v : Val) : Except Err Bool :=
  match t.elems with
  | none => .error (.typeErr "argument is not a container")
  | some xs =>
    if v ∈ t.badContains then .error (.typeErr "unsupported membership value")
    else .ok (decide (v ∈ xs))

/-- Native iteration: iter on the target, TypeError when not iterable. -/
def pyIter (t : PyObj) : Except Err (List Val) :=
  match t.elems with
  | some xs => .ok xs
  | none => .error (.typeErr "object is not iterable")

def pyStr (t : PyObj) : String := t.strVal

def pyRepr (t : PyObj) : String := t.reprVal

/-- Native subscript read: KeyError when absent. -/
def pyGetitem (t : PyObj) (k : Val) : Except Err Val :=
  match lookupA t.items k with
  | some v => .ok v
  | none => .error (.keyErr "key not found")

/-- Native subscript write. -/
def pySetitem (t : PyObj) (k v : Val) : PyObj :=
  { t with items := (k, v) :: removeKey t.items k }

/-- Native len: TypeError when the object defines no length. -/
def pyLen (t : PyObj) : Except Err Nat :=
  match t.lenVal with
  | some n => .ok n
  | none => .error (.typeErr "object has no len")

def pyEq (t : PyObj) (other : Val) : Bool := decide (other ∈ t.eqVals)

def pyNe (t : PyObj) (other : Val) : Bool := !decide (other ∈ t.eqVals)

def pyBool (t : PyObj) : Bool := t.truthy

/-- The handler registry of proxy.py (dataclass Handler, lines 96 to 112):
per-key dictionaries of overrides for get, set, delete and call, and single
optional override functions for the remaining operation categories.  Override
functions receive the target; an override that mutates the target returns the
updated target.  The proxy.py Handler performs no construction-time
validation, so any record of this structure is a constructible registry. -/
structure Handler where
  get : Option (List (String × (PyObj → Val)))
  set : Option (List (String × (PyObj → Val → PyObj)))
  contain : Option (PyObj → Val → Bool)
  delete : Option (List (String × (PyObj → PyObj)))
  call : Option (List (String × (PyObj → List Val → Val)))
  context : Option (PyObj → Val)
  iterator : Option (PyObj → List Val)
  str : Option (PyObj → String)
  repr : Option (PyObj → String)
  getitem : Option (PyObj → Val → Val)
  setitem : Option (PyObj → Val → Val → PyObj)
  len : Option (PyObj → Nat)
  eq : Option (PyObj → Val → Bool)
  ne : Option (PyObj → Val → Bool)
  bool : Option (PyObj → Bool)

/-- The registry with every field unset. -/
def emptyHandler : Handler :=
  { get := none, set := none, contain := none, delete := none, call := none
    context := none, iterator := none, str := none, repr := none
    getitem := none, setitem := none, len := none, eq := none, ne := none
    bool := none }

/-- The keyed-override lookup pattern of proxy.py: a guard on the truthiness of
the dictionary (None and the empty dict are both falsy) followed by dict.get. -/
def truthyLookup {α : Type} (d : Option (List (String × α))) (name : String) :
    Option α :=
  match d with
  | none => none
  | some entries => if entries.isEmpty then none else lookupA entries name

/-- PROTECTED_FIELDS of proxy.py, lines 115 to 122. -/
def PROTECTED_FIELDS : List String :=
  ["target", "handler", "__is_proxy__", "_iter", "__spoof_class__", "__strict__"]

/-- The wrapper state of proxy.py (dataclass Proxy).  `instFlags` records the
boolean instance attributes written with object.setattr by `wrap` (the source
writes the keys strict, is-proxy marker and optionally the spoof marker);
dataclass fields that are absent from the instance dictionary fall back to
their class-level defaults, which `strictFlag` below reproduces.  The pre and
post construction hooks of `wrap` (default None) and the lazily created
iteration cursor are not modelled: no claim depends on them. -/
structure Proxy where
  target : PyObj
  handler : Handler
  instFlags : List (String × Bool)

/-- The value of the strict-mode dataclass field as Python resolves it: the
instance dictionary first, then the class default False. -/
def strictFlag (p : Proxy) : Bool :=
  (lookupA p.instFlags "__strict__").getD false

/-- Proxy.check-strict of proxy.py, lines 137 to 141. -/
def checkStrict (p : Proxy) (name : String) (context : String) :
    Except Err Unit :=
  if strictFlag p then
    .error (.attrErr ("Strict mode: cannot " ++ context ++ " attribute " ++
      name ++ " not listed in handler."))
  else .ok ()

/-- wrap of proxy.py, lines 300 to 348: allocates the proxy without running the
generated initializer and writes the instance attributes with object.setattr.
Note that the source stores the strict argument under the instance attribute
named strict, while the dataclass field consulted by the strict check is the
differently named dunder-strict field. -/
def wrap (target : PyObj) (handler : Handler) (strict : Bool)
    (spoofClass : Bool) : Proxy :=
  { target := target
    handler := handler
    instFlags :=
      [("strict", strict), ("__is_proxy__", true)] ++
        (if spoofClass then [("__spoof_class__", true)] else []) }

/-- What an attribute read can produce: a plain value, or the bound lambda a
call-override read returns (proxy.py line 147); the lambda applies the stored
override to the target current at invocation time and the call arguments. -/
inductive AttrResult where
  | value (v : Val)
  | boundCall (f : PyObj → List Val → Val)

/-- Proxy.getattr of proxy.py, lines 143 to 155: call-override lookup first,
then read-override lookup, then the strict check, then native delegation. -/
def proxyGetattr (p : Proxy) (name : String) : Except Err AttrResult :=
  match truthyLookup p.handler.call name with
  | some f => .ok (.boundCall f)
  | none =>
    match truthyLookup p.handler.get name with
    | some f => .ok (.value (f p.target))
    | none =>
      match checkStrict p name "get" with
      | .error e => .error e
      | .ok _ =>
        match pyGetattr p.target name with
        | .ok v => .ok (.value v)
        | .error e => .error e

/-- Invoking the object obtained from an attribute read: the bound lambda of a
call-override applies the override to the current target and the arguments; a
plain data value is not callable in this model. -/
def callAttrResult (p : Proxy) (r : AttrResult) (args : List Val) :
    Except Err Val :=
  match r with
  | .boundCall f => .ok (f p.target args)
  | .value _ => .error (.typeErr "object is not callable")

/-- Proxy.setattr of proxy.py, lines 157 to 166: protected-name rejection
before any registry lookup, then write-override lookup, then the strict check,
then native delegation. -/
def proxySetattr (p : Proxy) (name : String) (v : Val) : Except Err Proxy :=
  if name ∈ PROTECTED_FIELDS then
    .error (.attrErr ("Cannot set protected field " ++ name ++ " from Proxy."))
  else
    match truthyLookup p.handler.set name with
    | some f => .ok { p with target := f p.target v }
    | none =>
      match checkStrict p name "set" with
      | .error e => .error e
      | .ok _ => .ok { p with target := pySetattr p.target name v }

/-- Proxy.delattr of proxy.py, lines 168 to 177. -/
def proxyDelattr (p : Proxy) (name : String) : Except Err Proxy :=
  if name ∈ PROTECTED_FIELDS then
    .error (.attrErr ("Cannot delete protected field " ++ name ++
      " from Proxy."))
  else
    match truthyLookup p.handler.delete name with
    | some f => .ok { p with target := f p.target }
    | none =>
      match checkStrict p name "delete" with
      | .error e => .error e
      | .ok _ =>
        match pyDelattr p.target name with
        | .ok t' => .ok { p with target := t' }
        | .error e => .error e

/-- Rendering of a queried value for the strict-check message. -/
def valText : Val → String
  | .vNone => "None"
  | .vBool b => if b then "True" else "False"
  | .vInt n => toString n
  | .vStr s => s
  | .vCtx cid _ _ => "ctx" ++ toString cid

/-- The second and third tier of the containment fallback of proxy.py, lines
189 to 192: a textual key answers hasattr on the target, anything else is
False. -/
def containsStrFallback (t : PyObj) (v : Val) : Bool :=
  match v with
  | .vStr s => pyHasattr t s
  | _ => false

/-- Proxy.contains of proxy.py, lines 179 to 192: a contain-override is
authoritative; otherwise, after the strict check, when the target supports
iteration the native membership is attempted with TypeError suppressed, and
the textual-key hasattr fallback (else False) concludes. -/
def proxyContains (p : Proxy) (v : Val) : Except Err Bool :=
  match p.handler.contain with
  | some f => .ok (f p.target v)
  | none =>
    match checkStrict p (valText v) "check contain" with
    | .error e => .error e
    | .ok _ =>
      match p.target.elems with
      | some _ =>
        match pyContains p.target v with
        | .ok b => .ok b
        | .error e =>
          if isTypeErr e then .ok (containsStrFallback p.target v)
          else .error e
      | none => .ok (containsStrFallback p.target v)

/-- Proxy.iter of proxy.py, lines 224 to 228. -/
def proxyIter (p : Proxy) : Except Err (List Val) :=
  match p.handler.iterator with
  | some f => .ok (f p.target)
  | none =>
    match checkStrict p "iterator" "access" with
    | .error e => .error e
    | .ok _ => pyIter p.target

/-- Proxy.str of proxy.py, lines 241 to 245. -/
def proxyStr (p : Proxy) : Except Err String :=
  match p.handler.str with
  | some f => .ok (f p.target)
  | none =>
    match checkStrict p "str" "access" with
    | .error e => .error e
    | .ok _ => .ok (pyStr p.target)

/-- Proxy.repr of proxy.py, lines 247 to 251. -/
def proxyRepr (p : Proxy) : Except Err String :=
  match p.handler.repr with
  | some f => .ok (f p.target)
  | none =>
    match checkStrict p "repr" "access" with
    | .error e => .error e
    | .ok _ => .ok (pyRepr p.target)

/-- Proxy.getitem of proxy.py, lines 253 to 257. -/
def proxyGetitem (p : Proxy) (k : Val) : Except Err Val :=
  match p.handler.getitem with
  | some f => .ok (f p.target k)
  | none =>
    match checkStrict p "getitem" "access" with
    | .error e => .error e
    | .ok _ => pyGetitem p.target k

/-- Proxy.setitem of proxy.py, lines 259 to 263. -/
def proxySetitem (p : Proxy) (k v : Val) : Except Err Proxy :=
  match p.handler.setitem with
  | some f => .ok { p with target := f p.target k v }
  | none =>
    match checkStrict p "setitem" "access" with
    | .error e => .error e
    | .ok _ => .ok { p with target := pySetitem p.target k v }

/-- Proxy.len of proxy.py, lines 265 to 269. -/
def proxyLen (p : Proxy) : Except Err Nat :=
  match p.handler.len with
  | some f => .ok (f p.target)
  | none =>
    match checkStrict p "len" "access" with
    | .error e => .error e
    | .ok _ => pyLen p.target

/-- Proxy.eq of proxy.py, lines 271 to 275. -/
def proxyEq (p : Proxy) (other : Val) : Except Err Bool :=
  match p.handler.eq with
  | some f => .ok (f p.target other)
  | none =>
    match checkStrict p "eq" "access" with
    | .error e => .error e
    | .ok _ => .ok (pyEq p.target other)

/-- Proxy.ne of proxy.py, lines 277 to 281. -/
def proxyNe (p : Proxy) (other : Val) : Except Err Bool :=
  match p.handler.ne with
  | some f => .ok (f p.target other)
  | none =>
    match checkStrict p "ne" "access" with
    | .error e => .error e
    | .ok _ => .ok (pyNe p.target other)

/-- Proxy.bool of proxy.py, lines 283 to 287. -/
def proxyBool (p : Proxy) : Except Err Bool :=
  match p.handler.bool with
  | some f => .ok (f p.target)
  | none =>
    match checkStrict p "bool" "access" with
    | .error e => .error e
    | .ok _ => .ok (pyBool p.target)

/-- Invocation events on context-manager objects, recorded by the enter and
exit operations of the wrapper: the context override produced an object,
enter was invoked on the object with the given identity, exit was invoked on
it with the given exception information (none when the guarded body finished
normally). -/
inductive CtxEvent where
  | created (cid : Nat)
  | entered (cid : Nat)
  | exited (cid : Nat) (exc : Option Nat)
  deriving DecidableEq

/-- Identity tag of a context value. -/
def ctxId : Val → Nat
  | .vCtx cid _ _ => cid
  | _ => 0

/-- hasattr of the wrapper for the stored-context attribute, as evaluated by
Proxy.exit line 214: the read goes through the full attribute dispatch (the
attribute is not in the instance dictionary of the proxy, because the write in
Proxy.enter line 198 itself went through the overridden setattr and landed on
the target); every failure of that dispatch is an AttributeError, which
hasattr converts to False. -/
def proxyHasCtx (p : Proxy) : Bool :=
  match proxyGetattr p "_ctx" with
  | .ok _ => true
  | .error _ => false

/-- Proxy.enter of proxy.py, lines 194 to 206.  With a context override the
source performs the attribute assignment of the produced object to the
context slot of the proxy, which is routed through the overridden setattr
(the slot name is not protected), and then reads the slot back through the
overridden getattr to invoke enter on it.  Without an override the target
must define both context-protocol methods or TypeError is raised.  The third
component of the result is the trace of context invocations. -/
def proxyEnter (p : Proxy) : Except Err (Val × Proxy × List CtxEvent) :=
  match checkStrict p "__enter__" "enter context" with
  | .error e => .error e
  | .ok _ =>
    match p.handler.context with
    | some f =>
      let c := f p.target
      match proxySetattr p "_ctx" c with
      | .error e => .error e
      | .ok p' =>
        match proxyGetattr p' "_ctx" with
        | .ok (.value (.vCtx cid enterRet _)) =>
          .ok (.vInt enterRet, p', [.created (ctxId c), .entered cid])
        | .ok _ => .error (.attrErr "__enter__")
        | .error e => .error e
    | none =>
      match p.target.enterSlot, p.target.exitSlot with
      | some n, some _ => .ok (.vInt n, p, [])
      | _, _ => .error (.typeErr "Target does not support context manager protocol")

/-- Proxy.exit of proxy.py, lines 208 to 222.  When the stored-context
attribute is readable the release path runs: exit is invoked on the object
read back from the target, and the finally block deletes the attribute
through the overridden delattr; the strict check and the native exit run only
otherwise. -/
def proxyExit (p : Proxy) (exc : Option Nat) :
    Except Err (Option Bool × Proxy × List CtxEvent) :=
  if proxyHasCtx p then
    let body : Except Err (Option Bool × List CtxEvent) :=
      match proxyGetattr p "_ctx" with
      | .ok (.value (.vCtx cid _ exitRet)) => .ok (exitRet, [.exited cid exc])
      | .ok _ => .error (.attrErr "__exit__")
      | .error e => .error e
    match proxyDelattr p "_ctx" with
    | .ok p' =>
      match body with
      | .ok (r, evs) => .ok (r, p', evs)
      | .error e => .error e
    | .error e => .error e
  else
    match checkStrict p "__exit__" "exit context" with
    | .error e => .error e
    | .ok _ =>
      match p.target.exitSlot with
      | some r => .ok (r, p, [])
      | none => .error (.attrErr "__exit__")

/-- The generated initializer of the dataclass Proxy of proxy.py (lines 125
to 135) assigns the target field with an ordinary attribute assignment, which
is routed through the overridden Proxy.setattr; that method rejects protected
field names before any registry lookup, so the first assignment decides the
outcome.  The unreachable fall-through completes the remaining assignments. -/
def proxyInit (target : PyObj) (handler : Handler) : Except Err Proxy :=
  if "target" ∈ PROTECTED_FIELDS then
    .error (.attrErr "Cannot set protected field target from Proxy.")
  else
    .ok { target := target, handler := handler, instFlags := [] }

/-!
Nested-wrapper values: a value is either a plain host object or a proxy
(target, handler, instance flags), so that wrappers of wrappers are
representable.  This is the domain of is-proxy, wrap, unwrap and deep-unwrap
of proxy.py.
-/

inductive PVal where
  | obj (t : PyObj)
  | prox (target : PVal) (handler : Handler) (instFlags : List (String × Bool))

/-- is_proxy of proxy.py, lines 290 to 291: the query getattr for the is-proxy
marker with default False.  On a proxy the marker written by wrap (with the
dataclass class default True behind it) answers the query; a plain host
object of this model does not define the marker. -/
def isProxyV : PVal → Bool
  | .obj _ => false
  | .prox _ _ flags => (lookupA flags "__is_proxy__").getD true

/-- wrap of proxy.py on the nested-value domain: same instance attributes as
`wrap`. -/
def wrapV (target : PVal) (handler : Handler) (strict : Bool)
    (spoofClass : Bool) : PVal :=
  .prox target handler
    ([("strict", strict), ("__is_proxy__", true)] ++
      (if spoofClass then [("__spoof_class__", true)] else []))

/-- unwrap of proxy.py, lines 351 to 354: one level when is-proxy holds. -/
def unwrapV : PVal → PVal
  | .obj t => .obj t
  | .prox t h flags =>
    if (lookupA flags "__is_proxy__").getD true then t
    else .prox t h flags

/-- deep_unwrap of proxy.py, lines 357 to 360, on the structural (hence
acyclic) nested-value domain: unwrap while is-proxy holds. -/
def deepUnwrapV : PVal → PVal
  | .obj t => .obj t
  | .prox t h flags =>
    if (lookupA flags "__is_proxy__").getD true then deepUnwrapV t
    else .prox t h flags

/-!
Heap model of wrapper chains: Python objects are heap references, and a cycle
(a wrapper whose target is, directly or transitively, itself) is expressible
only with reference identity.  A heap maps object identities to nodes; a
proxy node holds the identity of its target.  This is the domain on which the
termination behavior of deep_unwrap of proxy.py and the cycle detection of
unwrap of proxy3.py are stated.
-/

inductive HObj where
  | plainObj
  | proxyObj (targetId : Nat)
  deriving DecidableEq

abbrev Heap := List (Nat × HObj)

def isProxyH (h : Heap) (i : Nat) : Bool :=
  match lookupA h i with
  | some (.proxyObj _) => true
  | _ => false

def unwrapH (h : Heap) (i : Nat) : Nat :=
  match lookupA h i with
  | some (.proxyObj t) => t
  | _ => i

/-- The loop of deep_unwrap of proxy.py (unwrap while is-proxy holds), indexed
by the number of loop iterations allowed: none means the loop is still
running after that many iterations. -/
def deepUnwrapFuel (h : Heap) : Nat → Nat → Option Nat
  | 0, i => if isProxyH h i then none else some i
  | n + 1, i => if isProxyH h i then deepUnwrapFuel h n (unwrapH h i) else some i

/-- The loop of unwrap of proxy3.py, lines 286 to 316: walk the target chain
while the node is a proxy and depth is below the bound, raising ValueError
when an identity already visited is reached again; when the depth budget is
exhausted the loop exits and the current object (possibly still a proxy) is
returned.  The first argument of the recursion is the remaining depth budget,
the second the visited-identity set. -/
def unwrap3Go (h : Heap) : Nat → List Nat → Nat → Except String Nat
  | 0, _, i => .ok i
  | budget + 1, seen, i =>
    if isProxyH h i then
      if i ∈ seen then .error "Cycle detected in Proxy unwrap chain"
      else unwrap3Go h budget (i :: seen) (unwrapH h i)
    else .ok i

/-- unwrap of proxy3.py with its default depth bound of ten. -/
def unwrap3 (h : Heap) (i : Nat) : Except String Nat :=
  unwrap3Go h 10 [] i

/-!
Registry construction.  Raw (dynamically typed) field values for the two
Handler dataclasses: proxy3.py validates its fields in a post-init hook,
proxy.py defines no post-init hook at all.
-/

/-- A raw dynamic value supplied for a handler field. -/
inductive RawVal where
  | rNone
  | rDict (entries : List (String × RawVal))
  | rCallable (tag : Nat)
  | rInt (n : Int)
  | rStr (s : String)

def isCallableR : RawVal → Bool
  | .rCallable _ => true
  | _ => false

/-- The per-field check of Handler.post-init of proxy3.py, lines 93 to 109,
for the two mapping fields: a present value must be a dict and every stored
value must be callable. -/
def checkDictField (fieldName : String) (v : RawVal) : Except String Unit :=
  match v with
  | .rNone => .ok ()
  | .rDict entries =>
    match entries.find? (fun e => !isCallableR e.2) with
    | some e =>
      .error ("Handler field " ++ fieldName ++ " for key " ++ e.1 ++
        " must be callable")
    | none => .ok ()
  | _ =>
    .error ("Handler field " ++ fieldName ++
      " must be a dict mapping attribute names to callables")

/-- The per-field check of Handler.post-init of proxy3.py for the scalar
fields: a present value must be callable. -/
def checkCallableField (fieldName : String) (v : RawVal) : Except String Unit :=
  match v with
  | .rNone => .ok ()
  | v => if isCallableR v then .ok () else
      .error ("Handler field " ++ fieldName ++ " must be callable")

/-- The raw field values of the Handler dataclass of proxy3.py, in declaration
order (the order the post-init hook iterates the type hints in). -/
structure RawHandler3 where
  get : RawVal
  set : RawVal
  has : RawVal
  delete : RawVal
  call : RawVal
  create : RawVal
  context : RawVal

/-- Handler.post-init of proxy3.py, lines 93 to 109: every field checked in
declaration order, synchronously at construction. -/
def handler3PostInit (h : RawHandler3) : Except String Unit := do
  checkDictField "get" h.get
  checkDictField "set" h.set
  checkCallableField "has" h.has
  checkCallableField "delete" h.delete
  checkCallableField "call" h.call
  checkCallableField "create" h.create
  checkCallableField "context" h.context

/-- The raw field values of the Handler dataclass of proxy.py, lines 96 to
112, in declaration order. -/
structure RawHandler1 where
  get : RawVal
  set : RawVal
  contain : RawVal
  delete : RawVal
  call : RawVal
  context : RawVal
  iterator : RawVal
  str : RawVal
  repr : RawVal
  getitem : RawVal
  setitem : RawVal
  len : RawVal
  eq : RawVal
  ne : RawVal
  bool : RawVal

/-- Construction of the Handler dataclass of proxy.py: the dataclass defines
no post-init hook and performs no validation, so construction succeeds for
every combination of field values. -/
def handler1Construct (h : RawHandler1) : Except String RawHandler1 :=
  .ok h

/-- Modelled from the spec: the well-formedness condition of section 4.1 for
a proxy3 registry, stated from the words of the spec (a mapping where a
mapping is expected, every stored override invocable, every scalar override
invocable), to be compared with the post-init check of the source. -/
def specValid3 (h : RawHandler3) : Bool :=
  validDict h.get && validDict h.set && validCallable h.has &&
    validCallable h.delete && validCallable h.call &&
    validCallable h.create && validCallable h.context
where
  validDict : RawVal → Bool
    | .rNone => true
    | .rDict entries => entries.all (fun e => isCallableR e.2)
    | _ => false
  validCallable : RawVal → Bool
    | .rNone => true
    | v => isCallableR v

/-- Success test on an Except result. -/
def isOkE {ε α : Type} : Except ε α → Bool
  | .ok _ => true
  | .error _ => false

/-- Whether a value is a textual key. -/
def isStrVal : Val → Bool
  | .vStr _ => true
  | _ => false

/-- A plain object with one attribute and no iteration, length or context
capability, used in concrete evaluations. -/
def objW : PyObj :=
  { attrs := [("z", .vInt 1)], items := [], elems := none, badContains := []
    strVal := "S", reprVal := "R", lenVal := none, eqVals := [], truthy := true
    enterSlot := none, exitSlot := none }

/-- A fully capable target: one attribute, one item, an element sequence, a
length, an equality set and both context-protocol methods. -/
def tFull : PyObj :=
  { attrs := [("z", .vInt 1)], items := [(.vStr "k", .vInt 4)]
    elems := some [.vStr "a"], badContains := [], strVal := "S"
    reprVal := "R", lenVal := some 3, eqVals := [.vInt 42], truthy := true
    enterSlot := some 7, exitSlot := some (some false) }

/-- An iterable target whose membership check raises TypeError for the value
that is also the name of its attribute, exercising the suppression tier of
the containment fallback. -/
def tIter : PyObj :=
  { attrs := [("z", .vInt 1)], items := []
    elems := some [.vStr "a", .vStr "b", .vStr "c"]
    badContains := [.vStr "z"], strVal := "S", reprVal := "R"
    lenVal := none, eqVals := [], truthy := true
    enterSlot := none, exitSlot := none }

/-- A registry with only a context override, producing the context object with
identity seven, enter result three and exit result some true. -/
def ctxOnlyHandler : Handler :=
  { emptyHandler with context := some (fun _ => .vCtx 7 3 (some true)) }

/-- A call override used in concrete evaluations. -/
def gW : PyObj → List Val → Val := fun _ _ => .vInt 50

/-- A read override registered under the same key as the call override. -/
def fW : PyObj → Val := fun _ => .vStr "getres"

/-- A registry with the key add registered both as a call override and as a
read override. -/
def callGetHandler : Handler :=
  { emptyHandler with call := some [("add", gW)], get := some [("add", fW)] }

/-- A heap with a single proxy whose target is itself. -/
def cycleHeap : Heap := [(0, .proxyObj 0)]

/-- Outcome of the full attribute-read protocol on the wrapper: the name
resolved to the target field, the handler field, a boolean instance attribute
written by wrap, a member of the wrapper class, or reached the getattr
fallback with the given dispatch result. -/
inductive FullAttr where
  | targetField (t : PyObj)
  | handlerField (h : Handler)
  | instFlag (b : Bool)
  | classMember
  | dispatched (r : Except Err AttrResult)

/-- The attribute names resolved on the Proxy class of proxy.py rather than by
the getattr fallback: its methods, the class-level defaults of the dataclass
fields declared with init False, the dataclass and object machinery the class
carries, and the class attribute handled specially by getattribute.  A read
of any of these names never reaches the fallback. -/
def PROXY_CLASS_MEMBERS : List String :=
  ["__class__", "__init__", "__post_init__", "_check_strict", "__getattr__",
   "__setattr__", "__delattr__", "__getattribute__", "__contains__",
   "__enter__", "__exit__", "__iter__", "__next__", "__str__", "__repr__",
   "__getitem__", "__setitem__", "__len__", "__eq__", "__ne__", "__bool__",
   "__is_proxy__", "__strict__", "_iter", "__hash__", "__dict__", "__doc__",
   "__module__", "__weakref__", "__annotations__", "__dataclass_fields__",
   "__dataclass_params__", "__match_args__", "__new__", "__init_subclass__",
   "__subclasshook__", "__reduce__", "__reduce_ex__", "__sizeof__", "__dir__",
   "__format__", "__lt__", "__le__", "__gt__", "__ge__"]

/-- The full attribute-read protocol on the wrapper: getattribute resolves
the dataclass fields target and handler and the boolean instance attributes
written by wrap from the instance dictionary, and class members from the
class, before the getattr fallback of proxy.py lines 143 to 155 (modelled by
proxyGetattr) is consulted.  In particular a read of the attribute named
strict on a wrapper built by wrap returns the flag stored by wrap at line 338
and never reaches the fallback, and a read of a method name returns the bound
class member. -/
def proxyGetattrFull (p : Proxy) (name : String) : FullAttr :=
  if name = "target" then .targetField p.target
  else if name = "handler" then .handlerField p.handler
  else
    match lookupA p.instFlags name with
    | some b => .instFlag b
    | none =>
      if name ∈ PROXY_CLASS_MEMBERS then .classMember
      else .dispatched (proxyGetattr p name)

/-- Proxy.enter of proxy3.py, lines 217 to 227: with a context override the
override is invoked and the produced object is entered, nothing being stored
on the proxy; without one the target itself must be a context manager. -/
def proxy3Enter (t : PyObj) (ctx : Option (PyObj → Val)) :
    Except Err (Val × List CtxEvent) :=
  match ctx with
  | some f =>
    match f t with
    | .vCtx cid enterRet _ => .ok (.vInt enterRet, [.created cid, .entered cid])
    | _ => .error (.attrErr "__enter__")
  | none =>
    match t.enterSlot, t.exitSlot with
    | some n, some _ => .ok (.vInt n, [])
    | _, _ => .error (.typeErr "Target object is not a context manager")

/-- Proxy.exit of proxy3.py, lines 229 to 244: with a context override the
override is invoked again, producing a second context object whose exit is
invoked; without one the native exit of the target runs. -/
def proxy3Exit (t : PyObj) (ctx : Option (PyObj → Val)) (exc : Option Nat) :
    Except Err (Option Bool × List CtxEvent) :=
  match ctx with
  | some f =>
    match f t with
    | .vCtx cid _ exitRet => .ok (exitRet, [.created cid, .exited cid exc])
    | _ => .error (.attrErr "__exit__")
  | none =>
    match t.enterSlot, t.exitSlot with
    | some _, some r => .ok (r, [])
    | _, _ => .error (.typeErr "Target object is not a context manager")

/-- Number of context-creation events in a trace: how many times a context
override was invoked to produce a context object. -/
def countCreated (evs : List CtxEvent) : Nat :=
  (evs.filter fun e => match e with | .created _ => true | _ => false).length

/-- A registry combining a context override with a write override for the
context-slot attribute that stores nothing. -/
def swallowCtxHandler : Handler :=
  { emptyHandler with
      context := some (fun _ => .vCtx 7 3 (some true))
      set := some [("_ctx", fun t _ => t)] }

/-!  Helper lemmas. -/

theorem wrap_target (t : PyObj) (h : Handler) (s sp : Bool) :
    (wrap t h s sp).target = t := rfl

theorem wrap_handler (t : PyObj) (h : Handler) (s sp : Bool) :
    (wrap t h s sp).handler = h := rfl

/-- The strict check of proxy.py can never fire on a proxy built by wrap: the
source stores the strict argument under the instance attribute strict, while
the check reads the differently named dunder-strict dataclass field, which is
always resolved to its class default False. -/
theorem strictFlag_wrap (t : PyObj) (h : Handler) (s sp : Bool) :
    strictFlag (wrap t h s sp) = false := by
  cases s <;> cases sp <;> rfl

theorem strictFlag_target_update (p : Proxy) (x : PyObj) :
    strictFlag { p with target := x } = strictFlag p := rfl

theorem checkStrict_eq_ok (p : Proxy) (n c : String)
    (hp : strictFlag p = false) : checkStrict p n c = .ok () := by
  simp [checkStrict, hp]

theorem lookupA_cons_self {κ α : Type} [DecidableEq κ] (k : κ) (v : α)
    (rest : List (κ × α)) : lookupA ((k, v) :: rest) k = some v := by
  simp [lookupA]

theorem removeKey_of_lookupA_none {κ α : Type} [DecidableEq κ]
    (l : List (κ × α)) (k : κ) (h : lookupA l k = none) :
    removeKey l k = l := by
  induction l with
  | nil => rfl
  | cons a rest ih =>
    obtain ⟨k', v⟩ := a
    by_cases hk : k' = k
    · simp [lookupA, hk] at h
    · simp only [lookupA, if_neg hk] at h
      simp [removeKey, hk, ih h]

theorem deepUnwrapV_of_not_proxy (x : PVal) (hx : isProxyV x = false) :
    deepUnwrapV x = x := by
  cases x with
  | obj t => rfl
  | prox t h flags =>
    simp only [isProxyV] at hx
    simp [deepUnwrapV, hx]

/-!  Claim theorems. -/

/-- C10: constructing a Proxy of proxy.py through the ordinary dataclass
constructor always raises an AttributeError, for every target and handler,
because the generated initializer assigns the target field through the
overridden attribute-write path, which rejects protected field names before
any registry lookup; wrap, which bypasses that path, binds target and handler
directly and is the only constructor yielding a usable wrapper. -/
theorem proxy_constructor_always_raises (t : PyObj) (h : Handler)
    (s sp : Bool) :
    proxyInit t h =
      .error (.attrErr "Cannot set protected field target from Proxy.") ∧
    (wrap t h s sp).target = t ∧ (wrap t h s sp).handler = h :=
  ⟨rfl, rfl, rfl⟩

/-- C3: on a cyclic wrapper chain (a proxy whose target is itself, expressible
through the reference identities of the heap model), the loop of deep_unwrap
of proxy.py is still running after any number of iterations, so deep_unwrap
neither returns nor raises: it loops forever instead of raising a cycle
error.  The unwrap of proxy3.py, by contrast, detects the same cycle through
its visited-identity set and raises ValueError. -/
theorem deep_unwrap_cycle_divergence :
    (∀ fuel : Nat, deepUnwrapFuel cycleHeap fuel 0 = none) ∧
    unwrap3 cycleHeap 0 = .error "Cycle detected in Proxy unwrap chain" := by
  constructor
  · intro fuel
    induction fuel with
    | zero => rfl
    | succ n ih =>
      simpa [deepUnwrapFuel, isProxyH, unwrapH, cycleHeap, lookupA] using ih
  · rfl

/-- C2: strict mode is never enforced by proxy.py.  A proxy built by
wrap with the strict argument set to True carries the flag under the instance
attribute named strict, while the strict check reads the dunder-strict
dataclass field, which always resolves to its class default False; hence an
attribute read of a key with no matching override falls back to the target
exactly as in non-strict mode, instead of raising a strict-mode violation. -/
theorem strict_flag_never_enforced (t : PyObj) (h : Handler) (sp : Bool)
    (n : String)
    (hcall : truthyLookup h.call n = none)
    (hget : truthyLookup h.get n = none) :
    strictFlag (wrap t h true sp) = false ∧
    lookupA (wrap t h true sp).instFlags "strict" = some true ∧
    proxyGetattr (wrap t h true sp) n = (pyGetattr t n).map AttrResult.value := by
  refine ⟨strictFlag_wrap t h true sp, by cases sp <;> rfl, ?_⟩
  rw [proxyGetattr, wrap_handler, hcall, hget,
    checkStrict_eq_ok _ _ _ (strictFlag_wrap t h true sp), wrap_target]
  cases pyGetattr t n <;> rfl

/-- Witness for C2: wrapping the concrete object with the empty registry and
strict True, the read of the attribute z returns the value stored on the
target, with no strict-mode error and the target consulted. -/
theorem strict_flag_never_enforced_witness :
    strictFlag (wrap objW emptyHandler true false) = false ∧
    lookupA (wrap objW emptyHandler true false).instFlags "strict" = some true ∧
    proxyGetattr (wrap objW emptyHandler true false) "z" =
      (pyGetattr objW "z").map AttrResult.value :=
  strict_flag_never_enforced objW emptyHandler false "z" rfl rfl

/-- C4 counterexample: the Handler dataclass of proxy.py performs no
construction-time validation, so constructing a registry whose get field is
the non-mapping integer forty-two succeeds instead of failing with a
configuration error. -/
theorem handler1_no_validation_cex :
    handler1Construct
      { get := .rInt 42, set := .rNone, contain := .rNone, delete := .rNone
        call := .rNone, context := .rNone, iterator := .rNone, str := .rNone
        repr := .rNone, getitem := .rNone, setitem := .rNone, len := .rNone
        eq := .rNone, ne := .rNone, bool := .rNone } =
    .ok
      { get := .rInt 42, set := .rNone, contain := .rNone, delete := .rNone
        call := .rNone, context := .rNone, iterator := .rNone, str := .rNone
        repr := .rNone, getitem := .rNone, setitem := .rNone, len := .rNone
        eq := .rNone, ne := .rNone, bool := .rNone } := rfl

theorem isOkE_bindUnit {ε : Type} (a b : Except ε Unit) :
    isOkE (Except.bind a fun _ => b) = (isOkE a && isOkE b) := by
  cases a <;> rfl

theorem isOkE_checkDictField (name : String) (v : RawVal) :
    isOkE (checkDictField name v) = specValid3.validDict v := by
  cases v with
  | rDict entries =>
    simp only [checkDictField, specValid3.validDict]
    induction entries with
    | nil => rfl
    | cons a rest ih =>
      by_cases hc : isCallableR a.2 <;>
        simp [List.find?_cons, hc, isOkE, List.all_cons] <;>
        simpa [isOkE] using ih
  | _ => rfl

theorem isOkE_checkCallableField (name : String) (v : RawVal) :
    isOkE (checkCallableField name v) = specValid3.validCallable v := by
  cases v <;> rfl

/-- C4 (amended): the Handler of proxy3.py validates its registry
synchronously at construction, succeeding exactly when every mapping field is
a mapping of invocable values and every scalar field is invocable; the Handler
of proxy.py performs no construction-time validation at all, and constructing
it succeeds for every combination of field values, the error being deferred
to first use. -/
theorem handler_construction_validation :
    (∀ h : RawHandler3, isOkE (handler3PostInit h) = specValid3 h) ∧
    (∀ h : RawHandler1, handler1Construct h = .ok h) := by
  refine ⟨fun h => ?_, fun h => rfl⟩
  simp only [handler3PostInit, specValid3, bind, isOkE_bindUnit,
    isOkE_checkDictField, isOkE_checkCallableField, Bool.and_assoc]

/-- C9 counterexample: with the target itself a wrapper, deep_unwrap of a
wrapper of a wrapper of that target does not return the target: it unwraps
through it to the innermost plain object. -/
theorem deep_unwrap_double_cex :
    deepUnwrapV
        (wrapV (wrapV (wrapV (.obj objW) emptyHandler false false)
          emptyHandler false false) emptyHandler false false) ≠
      wrapV (.obj objW) emptyHandler false false := by
  intro hEq
  have h1 : deepUnwrapV
      (wrapV (wrapV (wrapV (.obj objW) emptyHandler false false)
        emptyHandler false false) emptyHandler false false) = .obj objW := rfl
  have h2 : wrapV (.obj objW) emptyHandler false false =
      .prox (.obj objW) emptyHandler
        [("strict", false), ("__is_proxy__", true)] := rfl
  rw [h1, h2] at hEq
  exact PVal.noConfusion hEq

/-- C9 (amended): for every target and registry, unwrap of wrap is the target
(one level removed); and for every target that is not itself a wrapper,
deep_unwrap of a wrapper of a wrapper of the target is the target. -/
theorem unwrap_wrap_roundtrip (x : PVal) (g h h' : Handler)
    (s s' sw sp sp' spw : Bool)
    (hx : isProxyV x = false) :
    unwrapV (wrapV x g sw spw) = x ∧
    deepUnwrapV (wrapV (wrapV x h s sp) h' s' sp') = x := by
  constructor
  · cases spw <;> rfl
  · have h1 : deepUnwrapV (wrapV (wrapV x h s sp) h' s' sp') =
        deepUnwrapV x := by
      cases sp <;> cases sp' <;> rfl
    rw [h1, deepUnwrapV_of_not_proxy x hx]

/-- Witness for C9 (amended): at the concrete plain object, unwrap of wrap is
the object and deep_unwrap of the double wrapper is the object. -/
theorem unwrap_wrap_roundtrip_witness :
    unwrapV (wrapV (.obj objW) emptyHandler false true) = .obj objW ∧
    deepUnwrapV (wrapV (wrapV (.obj objW) emptyHandler false false)
      emptyHandler true false) = .obj objW :=
  unwrap_wrap_roundtrip (.obj objW) emptyHandler emptyHandler emptyHandler
    false true false false false true rfl

/-- C6: when a key is registered both in the call-override table and in the
read-override table, reading the attribute on the wrapper yields the bound
callable derived from the call override (the call override takes precedence
over the read override), and invoking that callable with arguments returns
the call override applied to the target and the arguments. -/
theorem call_override_precedence (t : PyObj) (h : Handler) (sp : Bool)
    (n : String) (args : List Val)
    (g : PyObj → List Val → Val) (f : PyObj → Val)
    (hcall : truthyLookup h.call n = some g)
    (hget : truthyLookup h.get n = some f) :
    proxyGetattr (wrap t h false sp) n = .ok (.boundCall g) ∧
    callAttrResult (wrap t h false sp) (.boundCall g) args = .ok (g t args) := by
  constructor
  · rw [proxyGetattr, wrap_handler, hcall]
  · rfl

/-- Witness for C6: with the key add registered as both a call override and a
read override, the attribute read yields the bound call override, and its
invocation returns the call override result fifty. -/
theorem call_override_precedence_witness :
    proxyGetattr (wrap tFull callGetHandler false false) "add" =
      .ok (.boundCall gW) ∧
    callAttrResult (wrap tFull callGetHandler false false) (.boundCall gW)
      [.vInt 2, .vInt 3] = .ok (.vInt 50) :=
  call_override_precedence tFull callGetHandler false "add"
    [.vInt 2, .vInt 3] gW fW rfl rfl

/-- C8: on the context-overridden enter, the wrapper itself writes to the
target: the produced context object is stored as the attribute named ctx-slot
on the target (the assignment in the source is routed through the overridden
setattr and falls back to a native write on the target), so the target does
not stay untouched even though the override performed no mutation.  The first
conjunct evaluates the enter at a concrete wrapper; the second and third show
the attribute present on the target state after the call and absent before. -/
theorem enter_override_writes_target :
    proxyEnter (wrap objW ctxOnlyHandler false false) =
      .ok (.vInt 3,
        { wrap objW ctxOnlyHandler false false with
            target := pySetattr objW "_ctx" (.vCtx 7 3 (some true)) },
        [.created 7, .entered 7]) ∧
    lookupA (pySetattr objW "_ctx" (.vCtx 7 3 (some true))).attrs "_ctx" =
      some (.vCtx 7 3 (some true)) ∧
    lookupA objW.attrs "_ctx" = none :=
  ⟨rfl, rfl, rfl⟩

/-- C7: with no contain-override and strict mode off, the containment check of
proxy.py follows the three-tier fallback exactly: when the target supports
iteration, the native membership answer is returned when the attempt does not
raise, while a TypeError from the attempt is suppressed and falls through;
the fall-through (also taken when the target is not iterable) answers hasattr
on the target for a textual key, and False for anything else. -/
theorem contain_three_tier (t : PyObj) (h : Handler) (sp : Bool)
    (v : Val) (b : Bool) (m s : String)
    (hc : h.contain = none) :
    (t.elems.isSome = true → pyContains t v = .ok b →
      proxyContains (wrap t h false sp) v = .ok b) ∧
    (t.elems.isSome = true → pyContains t v = .error (.typeErr m) →
      proxyContains (wrap t h false sp) v = .ok (containsStrFallback t v)) ∧
    (t.elems.isSome = false →
      proxyContains (wrap t h false sp) v = .ok (containsStrFallback t v)) ∧
    (v = .vStr s → containsStrFallback t v = pyHasattr t s) ∧
    (isStrVal v = false → containsStrFallback t v = false) := by
  have hok := checkStrict_eq_ok (wrap t h false sp) (valText v) "check contain"
    (strictFlag_wrap t h false sp)
  refine ⟨?_, ?_, ?_, ?_, ?_⟩
  · intro h1 h2
    obtain ⟨xs, hxs⟩ := Option.isSome_iff_exists.mp h1
    simp [proxyContains, wrap_handler, wrap_target, hc, hok, hxs, h2]
  · intro h1 h2
    obtain ⟨xs, hxs⟩ := Option.isSome_iff_exists.mp h1
    simp [proxyContains, wrap_handler, wrap_target, hc, hok, hxs, h2, isTypeErr]
  · intro h1
    have hxs : t.elems = none := Option.not_isSome_iff_eq_none.mp (by simp [h1])
    simp [proxyContains, wrap_handler, wrap_target, hc, hok, hxs]
  · intro hv
    subst hv
    rfl
  · intro hv
    cases v <;> simp_all [isStrVal, containsStrFallback]

/-- Witness for C7: on the iterable target, membership of a finds the element;
membership of z raises TypeError inside the native attempt, is suppressed and
falls back to the attribute check, which finds the attribute z; on the
non-iterable object the same textual fallback answers the attribute check;
and a non-textual value falls through to False. -/
theorem contain_three_tier_witness :
    proxyContains (wrap tIter emptyHandler false false) (.vStr "a") =
      .ok true ∧
    proxyContains (wrap tIter emptyHandler false false) (.vStr "z") =
      .ok (containsStrFallback tIter (.vStr "z")) ∧
    proxyContains (wrap objW emptyHandler false false) (.vStr "z") =
      .ok (containsStrFallback objW (.vStr "z")) ∧
    containsStrFallback tIter (.vStr "z") = pyHasattr tIter "z" ∧
    containsStrFallback tIter (.vInt 5) = false := by
  refine ⟨?_, ?_, ?_, ?_, ?_⟩
  · exact (contain_three_tier tIter emptyHandler false (.vStr "a") true "m" "a"
      rfl).1 rfl rfl
  · exact (contain_three_tier tIter emptyHandler false (.vStr "z") true
      "unsupported membership value" "z" rfl).2.1 rfl rfl
  · exact (contain_three_tier objW emptyHandler false (.vStr "z") true "m" "z"
      rfl).2.2.1 rfl
  · exact (contain_three_tier tIter emptyHandler false (.vStr "z") true "m" "z"
      rfl).2.2.2.1 rfl
  · exact (contain_three_tier tIter emptyHandler false (.vInt 5) true "m" "z"
      rfl).2.2.2.2 rfl

/-- C5 counterexample: the claim fails as stated, on both cited sources.
First, the release path of proxy3.py re-invokes the context override: the
trace of the full round trip carries two creation events, so the override is
not invoked once, and the object whose exit runs is a second produced
context, not the entered one.  Second, on proxy.py a registry that defines a
context override together with a write override for the context-slot
attribute (which stores nothing) swallows the produced object: acquisition
raises AttributeError without ever invoking enter on the object, although the
registry defines a context override. -/
theorem context_round_trip_cex :
    proxy3Enter objW (some (fun _ => .vCtx 7 3 (some true))) =
      .ok (.vInt 3, [.created 7, .entered 7]) ∧
    proxy3Exit objW (some (fun _ => .vCtx 7 3 (some true))) (some 9) =
      .ok (some true, [.created 7, .exited 7 (some 9)]) ∧
    countCreated ([CtxEvent.created 7, .entered 7] ++
      [.created 7, .exited 7 (some 9)]) = 2 ∧
    proxyEnter (wrap objW swallowCtxHandler false false) =
      .error (.attrErr "_ctx") :=
  ⟨rfl, rfl, rfl, rfl⟩

/-- C5 (amended): the scoped-resource round trip with a context override, on
proxy.py, for a registry that does not itself intercept the context-slot
attribute (no read, write, call or delete override for the slot) and a
target with no preexisting slot attribute.  Acquisition invokes the override
once on the target, producing one context object, and invokes enter exactly
once on it; release invokes exit exactly once on that same object (same
identity), whatever exception information the guarded body produced, returns
the exit suppression value of the object, and restores the wrapper state to
the pre-acquisition state, so a later acquisition produces a fresh context.
On proxy3.py the round trip instead invokes the override on both acquisition
and release, exiting a second context (see the counterexample). -/
theorem context_round_trip (t : PyObj) (h : Handler) (sp : Bool)
    (f : PyObj → Val) (cid en : Nat) (xr : Option Bool) (exc : Option Nat)
    (hctx : h.context = some f)
    (hf : f t = .vCtx cid en xr)
    (hsetc : truthyLookup h.set "_ctx" = none)
    (hcallc : truthyLookup h.call "_ctx" = none)
    (hgetc : truthyLookup h.get "_ctx" = none)
    (hdelc : truthyLookup h.delete "_ctx" = none)
    (hnoc : lookupA t.attrs "_ctx" = none) :
    proxyEnter (wrap t h false sp) =
      .ok (.vInt en,
        { wrap t h false sp with
            target := pySetattr t "_ctx" (.vCtx cid en xr) },
        [.created cid, .entered cid]) ∧
    proxyExit
        { wrap t h false sp with
            target := pySetattr t "_ctx" (.vCtx cid en xr) } exc =
      .ok (xr, wrap t h false sp, [.exited cid exc]) := by
  constructor
  · cases sp <;>
      simp [proxyEnter, checkStrict, strictFlag, wrap, lookupA, hctx, hf,
        proxySetattr, PROTECTED_FIELDS, hsetc, proxyGetattr, hcallc, hgetc,
        pyGetattr, pySetattr, ctxId]
  · cases sp <;>
      simp [proxyExit, proxyHasCtx, proxyGetattr, hcallc, hgetc, checkStrict,
        strictFlag, wrap, lookupA, pyGetattr, pySetattr, proxyDelattr,
        PROTECTED_FIELDS, hdelc, pyDelattr, removeKey,
        removeKey_of_lookupA_none t.attrs "_ctx" hnoc]

/-- Witness for C5: the concrete round trip on the plain object with the
context-only registry, with the guarded body raising exception nine: enter
stores the produced context on the wrapper state and returns the enter result
three with one creation and one enter event; exit returns the suppression
value some true with exactly one exit event carrying the exception, and
restores the original wrapper state. -/
theorem context_round_trip_witness :
    proxyEnter (wrap objW ctxOnlyHandler false false) =
      .ok (.vInt 3,
        { wrap objW ctxOnlyHandler false false with
            target := pySetattr objW "_ctx" (.vCtx 7 3 (some true)) },
        [.created 7, .entered 7]) ∧
    proxyExit
        { wrap objW ctxOnlyHandler false false with
            target := pySetattr objW "_ctx" (.vCtx 7 3 (some true)) }
        (some 9) =
      .ok (some true, wrap objW ctxOnlyHandler false false,
        [.exited 7 (some 9)]) :=
  context_round_trip objW ctxOnlyHandler false
    (fun _ => .vCtx 7 3 (some true)) 7 3 (some true) (some 9)
    rfl rfl rfl rfl rfl rfl rfl

/-- C1 counterexample: writing the attribute named target, a key for which the
empty registry has no override, with strict mode disabled, raises an
AttributeError on the wrapper although the same write performed directly on
the target succeeds: the wrapper is not observationally identical to the
target on this no-override operation. -/
theorem no_override_write_differs_cex :
    proxySetattr (wrap objW emptyHandler false false) "target" (.vInt 1) =
      .error (.attrErr "Cannot set protected field target from Proxy.") ∧
    pySetattr objW "target" (.vInt 1) =
      { objW with attrs := [("target", .vInt 1), ("z", .vInt 1)] } :=
  ⟨rfl, rfl⟩

/-- C1 (amended): with strict mode disabled, every operation for which the
registry has no matching override delegates to the target with the identical
result (value or raised error), as follows.  Attribute read delegates for
keys the wrapper does not itself resolve: not the target or handler field,
not an instance flag written by wrap (notably the key named strict), and not
a member of the wrapper class (such reads answer from the wrapper itself and
never reach the fallback).  Attribute write and delete delegate for keys
outside the protected wrapper field set (on a protected key they raise
instead).  Iteration, string conversion, debug representation, indexed read
and write, length, equality, inequality and truthiness delegate
unconditionally.  The containment check delegates whenever the target
supports iteration and the native membership attempt does not raise (an
unsupported attempt falls back to the textual-key attribute check rather
than raising as the target would).  Context enter and exit delegate whenever
the target supports the context protocol, the registry has no context, call
or read override for the context slot, and the target exposes no stale
context-slot attribute (a readable slot would take the release path
instead). -/
theorem no_override_delegates (t : PyObj) (h : Handler) (sp : Bool)
    (n : String) (v k w cv : Val) (b : Bool) (es : List Val) (en : Nat)
    (xr : Option Bool) (exc : Option Nat)
    (hcall : truthyLookup h.call n = none)
    (hget : truthyLookup h.get n = none)
    (hn1 : n ≠ "target")
    (hn2 : n ≠ "handler")
    (hninst : lookupA (wrap t h false sp).instFlags n = none)
    (hncls : n ∉ PROXY_CLASS_MEMBERS)
    (hset : truthyLookup h.set n = none)
    (hdel : truthyLookup h.delete n = none)
    (hprot : n ∉ PROTECTED_FIELDS)
    (hcon : h.contain = none)
    (hiter : h.iterator = none)
    (hstr : h.str = none)
    (hrepr : h.repr = none)
    (hgi : h.getitem = none)
    (hsi : h.setitem = none)
    (hlen : h.len = none)
    (heqh : h.eq = none)
    (hneh : h.ne = none)
    (hbool : h.bool = none)
    (hctx : h.context = none)
    (hel : t.elems = some es)
    (hmem : pyContains t cv = .ok b)
    (hen : t.enterSlot = some en)
    (hex : t.exitSlot = some xr)
    (hcallc : truthyLookup h.call "_ctx" = none)
    (hgetc : truthyLookup h.get "_ctx" = none)
    (hnoc : lookupA t.attrs "_ctx" = none) :
    proxyGetattrFull (wrap t h false sp) n =
      .dispatched ((pyGetattr t n).map AttrResult.value) ∧
    proxySetattr (wrap t h false sp) n v =
      .ok { wrap t h false sp with target := pySetattr t n v } ∧
    proxyDelattr (wrap t h false sp) n =
      (pyDelattr t n).map
        (fun t' => { wrap t h false sp with target := t' }) ∧
    proxyContains (wrap t h false sp) cv = .ok b ∧
    proxyIter (wrap t h false sp) = pyIter t ∧
    proxyStr (wrap t h false sp) = .ok (pyStr t) ∧
    proxyRepr (wrap t h false sp) = .ok (pyRepr t) ∧
    proxyGetitem (wrap t h false sp) k = pyGetitem t k ∧
    proxySetitem (wrap t h false sp) k w =
      .ok { wrap t h false sp with target := pySetitem t k w } ∧
    proxyLen (wrap t h false sp) = pyLen t ∧
    proxyEq (wrap t h false sp) cv = .ok (pyEq t cv) ∧
    proxyNe (wrap t h false sp) cv = .ok (pyNe t cv) ∧
    proxyBool (wrap t h false sp) = .ok (pyBool t) ∧
    proxyEnter (wrap t h false sp) = .ok (.vInt en, wrap t h false sp, []) ∧
    proxyExit (wrap t h false sp) exc = .ok (xr, wrap t h false sp, []) := by
  have hflag : strictFlag (wrap t h false sp) = false :=
    strictFlag_wrap t h false sp
  refine ⟨?_, ?_, ?_, ?_, ?_, ?_, ?_, ?_, ?_, ?_, ?_, ?_, ?_, ?_, ?_⟩
  · simp only [proxyGetattrFull, if_neg hn1, if_neg hn2, hninst, if_neg hncls]
    rw [proxyGetattr, wrap_handler, hcall, hget,
      checkStrict_eq_ok _ _ _ hflag, wrap_target]
    cases pyGetattr t n <;> rfl
  · simp [proxySetattr, hprot, wrap_handler, hset,
      checkStrict_eq_ok _ _ _ hflag, wrap_target]
  · rw [proxyDelattr, if_neg hprot, wrap_handler, hdel,
      checkStrict_eq_ok _ _ _ hflag, wrap_target]
    cases pyDelattr t n <;> rfl
  · simp [proxyContains, wrap_handler, hcon,
      checkStrict_eq_ok _ _ _ hflag, wrap_target, hel, hmem]
  · simp [proxyIter, wrap_handler, hiter,
      checkStrict_eq_ok _ _ _ hflag, wrap_target]
  · simp [proxyStr, wrap_handler, hstr,
      checkStrict_eq_ok _ _ _ hflag, wrap_target]
  · simp [proxyRepr, wrap_handler, hrepr,
      checkStrict_eq_ok _ _ _ hflag, wrap_target]
  · simp [proxyGetitem, wrap_handler, hgi,
      checkStrict_eq_ok _ _ _ hflag, wrap_target]
  · simp [proxySetitem, wrap_handler, hsi,
      checkStrict_eq_ok _ _ _ hflag, wrap_target]
  · simp [proxyLen, wrap_handler, hlen,
      checkStrict_eq_ok _ _ _ hflag, wrap_target]
  · simp [proxyEq, wrap_handler, heqh,
      checkStrict_eq_ok _ _ _ hflag, wrap_target]
  · simp [proxyNe, wrap_handler, hneh,
      checkStrict_eq_ok _ _ _ hflag, wrap_target]
  · simp [proxyBool, wrap_handler, hbool,
      checkStrict_eq_ok _ _ _ hflag, wrap_target]
  · simp [proxyEnter, wrap_handler, hctx,
      checkStrict_eq_ok _ _ _ hflag, wrap_target, hen, hex]
  · have hnoget : proxyGetattr (wrap t h false sp) "_ctx" =
        .error (.attrErr "_ctx") := by
      rw [proxyGetattr, wrap_handler, hcallc, hgetc,
        checkStrict_eq_ok _ _ _ hflag, wrap_target, pyGetattr, hnoc]
    simp [proxyExit, proxyHasCtx, hnoget,
      checkStrict_eq_ok _ _ _ hflag, wrap_target, hex]

/-- Witness for C1 (amended): all fifteen delegations evaluated at the fully
capable concrete target wrapped with the empty registry, at the key foo. -/
theorem no_override_delegates_witness :
    proxyGetattrFull (wrap tFull emptyHandler false false) "foo" =
      .dispatched ((pyGetattr tFull "foo").map AttrResult.value) ∧
    proxySetattr (wrap tFull emptyHandler false false) "foo" (.vInt 2) =
      .ok { wrap tFull emptyHandler false false with
              target := pySetattr tFull "foo" (.vInt 2) } ∧
    proxyDelattr (wrap tFull emptyHandler false false) "foo" =
      (pyDelattr tFull "foo").map
        (fun t' => { wrap tFull emptyHandler false false with target := t' }) ∧
    proxyContains (wrap tFull emptyHandler false false) (.vStr "a") =
      .ok true ∧
    proxyIter (wrap tFull emptyHandler false false) = pyIter tFull ∧
    proxyStr (wrap tFull emptyHandler false false) = .ok (pyStr tFull) ∧
    proxyRepr (wrap tFull emptyHandler false false) = .ok (pyRepr tFull) ∧
    proxyGetitem (wrap tFull emptyHandler false false) (.vStr "k") =
      pyGetitem tFull (.vStr "k") ∧
    proxySetitem (wrap tFull emptyHandler false false) (.vStr "k") (.vInt 9) =
      .ok { wrap tFull emptyHandler false false with
              target := pySetitem tFull (.vStr "k") (.vInt 9) } ∧
    proxyLen (wrap tFull emptyHandler false false) = pyLen tFull ∧
    proxyEq (wrap tFull emptyHandler false false) (.vStr "a") =
      .ok (pyEq tFull (.vStr "a")) ∧
    proxyNe (wrap tFull emptyHandler false false) (.vStr "a") =
      .ok (pyNe tFull (.vStr "a")) ∧
    proxyBool (wrap tFull emptyHandler false false) = .ok (pyBool tFull) ∧
    proxyEnter (wrap tFull emptyHandler false false) =
      .ok (.vInt 7, wrap tFull emptyHandler false false, []) ∧
    proxyExit (wrap tFull emptyHandler false false) (some 3) =
      .ok (some false, wrap tFull emptyHandler false false, []) :=
  no_override_delegates tFull emptyHandler false "foo" (.vInt 2) (.vStr "k")
    (.vInt 9) (.vStr "a") true [.vStr "a"] 7 (some false) (some 3)
    rfl rfl (by decide) (by decide) rfl (by decide) rfl rfl (by decide)
    rfl rfl rfl rfl rfl rfl rfl rfl rfl rfl rfl rfl rfl rfl rfl rfl rfl rfl

end PyProxy
